import Mathlib

/-!
Verification of the claude-meter usage-aggregation and notification-gating
core, as a shallow embedding in Lean 4.

Conventions of the embedding:
* JavaScript timestamps (`Date.now()`, `Date` values) are `Int` milliseconds.
* JavaScript numbers used for percentages and costs are `ℚ`: the source only
  adds and compares them, and `Math.round` is Mathlib's `round`.
* Stateful classes become explicit state records; an `async` method becomes a
  function from the state and its external inputs (fetch results, current
  time) to the new state and its result.
* A promise that may reject is an `Except Unit` value; a soft-failing source
  that resolves to `null` is an `Option`.
-/

namespace ClaudeMeter

/-- The three status levels of `MenuBarData.status`. -/
inductive Status where
  | safe
  | warning
  | critical
deriving DecidableEq, Repr

/-- The `CCUsageService.getStatus` (ccusageService): fixed 90/70 thresholds, no
configuration input. -/
def getStatus (percentageUsed : ℚ) : Status :=
  if percentageUsed ≥ 90 then .critical
  else if percentageUsed ≥ 70 then .warning
  else .safe

/-- The `SessionBlock` shape consumed by `CCUsageService`. `startTime` and
`endTime` are `Date`s, compared numerically in the source, so they are `Int`
epoch milliseconds here. The optional `isGap?` field is a `Bool`: the source
tests it for truthiness, and an absent field behaves as `false`. -/
structure SessionBlock where
  id : String
  startTime : Int
  endTime : Int
  isActive : Bool
  isGap : Bool
  costUSD : ℚ
deriving DecidableEq, Repr

/-- The `CCUsageService.getSessionWindowCost`: sum of `costUSD` over non-gap
blocks whose `startTime` is at or after `now - 5h`. -/
def getSessionWindowCost (sessionBlocks : List SessionBlock) (now : Int) : ℚ :=
  if sessionBlocks.isEmpty then 0
  else
    let windowStart := now - 5 * 60 * 60 * 1000
    sessionBlocks.foldl
      (fun total block =>
        if block.isGap then total
        else if block.startTime ≥ windowStart then total + block.costUSD
        else total)
      0

/-- The `DailyUsage` from types/usage.ts; `models` is a JavaScript object, i.e.
an insertion-ordered association list from model name to tokens/cost. -/
structure ModelUsage where
  tokens : ℚ
  cost : ℚ
deriving DecidableEq, Repr

structure DailyUsage where
  date : String
  totalTokens : ℚ
  totalCost : ℚ
  models : List (String × ModelUsage)
deriving DecidableEq, Repr

/-- One window of `OAuthUtilization` (types/usage.ts). -/
structure OAuthWindow where
  utilization : ℚ
  resetsAt : String
  formattedTimeRemaining : String
deriving DecidableEq, Repr

structure OAuthSonnet where
  utilization : ℚ
deriving DecidableEq, Repr

structure OAuthOpus where
  utilization : ℚ
  resetsAt : Option String
  formattedTimeRemaining : String
deriving DecidableEq, Repr

structure OAuthExtraUsage where
  isEnabled : Bool
  monthlyLimit : Option ℚ
  usedCredits : Option ℚ
  utilization : Option ℚ
deriving DecidableEq, Repr

/-- The `OAuthUtilization` from types/usage.ts. -/
structure OAuthUtilization where
  fiveHour : OAuthWindow
  sevenDay : OAuthWindow
  sevenDaySonnet : Option OAuthSonnet
  sevenDayOpus : Option OAuthOpus
  extraUsage : Option OAuthExtraUsage
  isAvailable : Bool
deriving DecidableEq, Repr

/-- The `UsageStats` from types/usage.ts. -/
structure UsageStats where
  today : DailyUsage
  thisWeek : List DailyUsage
  oauthUtilization : Option OAuthUtilization
deriving DecidableEq, Repr

/-- The `MenuBarData` from types/usage.ts. -/
structure MenuBarData where
  percentageUsed : ℚ
  cost : ℚ
  status : Status
  oauthUtilization : Option OAuthUtilization
deriving DecidableEq, Repr

inductive CostSource where
  | today
  | sessionWindow
deriving DecidableEq, Repr

/-! ## NotificationService (src/services/notificationService.ts) -/

/-- The string form of a status, as interpolated into the data identifier. -/
def Status.key : Status → String
  | .safe => "safe"
  | .warning => "warning"
  | .critical => "critical"

/-- JavaScript `Math.round`: half-increments round toward positive infinity,
i.e. `⌊q + 1/2⌋`, written directly on the numerator and denominator so that
it evaluates by kernel reduction. `jsRound_eq_round` below identifies it
with Mathlib's `round`. -/
def jsRound (q : ℚ) : Int := Int.fdiv (2 * q.num + q.den) (2 * (q.den : Int))

/-- The `dataIdentifier` built at the top of `checkAndNotify`:
the status string, a dash, and `Math.round(data.percentageUsed)`. -/
def notificationDataIdentifier (data : MenuBarData) : String :=
  data.status.key ++ "-" ++ toString (jsRound data.percentageUsed)

/-- The mutable fields of `NotificationService`. -/
structure NotificationState where
  lastNotificationTime : Int
  lastWarningLevel : Status
  lastNotificationData : String
  notificationInProgress : Bool
deriving DecidableEq, Repr

/-- The field initializers of `NotificationService`. -/
def initialNotificationState : NotificationState :=
  { lastNotificationTime := 0
    lastWarningLevel := .safe
    lastNotificationData := ""
    notificationInProgress := false }

/-- The `NOTIFICATION_COOLDOWN` (5 minutes, in ms). -/
def NOTIFICATION_COOLDOWN : Int := 300000

inductive TriggerSource where
  | auto
  | manual
deriving DecidableEq, Repr

/-- The `NotificationService.checkAndNotify`. Returns the new state and whether a
notification fired (i.e. whether `sendNotification` was invoked; the Notifier
itself is an external side effect). The `source` parameter exists in the
signature but is unread in the body, as in the source. On a fire the source
sets `notificationInProgress := true` and schedules a `setTimeout` that
clears it 1 s later; that callback is `resetNotificationLock` below. -/
def checkAndNotify (s : NotificationState) (data : MenuBarData) (now : Int)
    (_source : TriggerSource) : NotificationState × Bool :=
  let timeSinceLastNotification := now - s.lastNotificationTime
  let dataIdentifier := notificationDataIdentifier data
  if s.lastNotificationData = dataIdentifier ∨ s.notificationInProgress then
    (s, false)
  else if timeSinceLastNotification < NOTIFICATION_COOLDOWN then
    (s, false)
  else if data.status = .critical ∧ s.lastWarningLevel ≠ .critical then
    ({ lastNotificationTime := now
       lastWarningLevel := data.status
       lastNotificationData := dataIdentifier
       notificationInProgress := true }, true)
  else if data.status = .warning ∧ s.lastWarningLevel = .safe then
    ({ lastNotificationTime := now
       lastWarningLevel := data.status
       lastNotificationData := dataIdentifier
       notificationInProgress := true }, true)
  else
    (s, false)

/-- The `setTimeout` callback scheduled on a fire: after 1 s it clears the
in-progress lock and changes nothing else. -/
def resetNotificationLock (s : NotificationState) : NotificationState :=
  { s with notificationInProgress := false }

/-- Runs a sequence of `checkAndNotify` calls spaced far enough apart that
the 1-second lock-release timeout has run between any two of them (every
claim about call sequences here spaces calls by at least the 5-minute
cooldown). Returns the final state and the per-call fire flags. -/
def runSpacedCalls (s : NotificationState) (calls : List (MenuBarData × Int)) :
    NotificationState × List Bool :=
  match calls with
  | [] => (s, [])
  | (data, now) :: rest =>
    let r := checkAndNotify s data now .auto
    let r' := runSpacedCalls (resetNotificationLock r.1) rest
    (r'.1, r.2 :: r'.2)

/-! ## ClaudeOAuthService (claudeOAuthService.ts) -/

/-- The `ClaudeUsageLimit`: `resets_at` is `string | null`. -/
structure ClaudeUsageLimit where
  utilization : ℚ
  resets_at : Option String
deriving DecidableEq, Repr

structure ClaudeExtraUsage where
  is_enabled : Bool
  monthly_limit : Option ℚ
  used_credits : Option ℚ
  utilization : Option ℚ
deriving DecidableEq, Repr

/-- The `ClaudeUsageData` after the structure validation: the two mandatory
windows are present. -/
structure ClaudeUsageData where
  five_hour : ClaudeUsageLimit
  seven_day : ClaudeUsageLimit
  seven_day_sonnet : Option ClaudeUsageLimit
  seven_day_opus : Option ClaudeUsageLimit
  seven_day_oauth_apps : Option ClaudeUsageLimit
  extra_usage : Option ClaudeExtraUsage
deriving DecidableEq, Repr

/-- The parsed JSON body as received, before the
`!data.five_hour || !data.seven_day` validation: either mandatory window may
be missing. -/
structure RawUsageData where
  five_hour : Option ClaudeUsageLimit
  seven_day : Option ClaudeUsageLimit
  seven_day_sonnet : Option ClaudeUsageLimit
  seven_day_opus : Option ClaudeUsageLimit
  seven_day_oauth_apps : Option ClaudeUsageLimit
  extra_usage : Option ClaudeExtraUsage
deriving DecidableEq, Repr

/-- Outcome of the single `fetch` to the usage endpoint: the promise rejects
(network error), or a response arrives with `response.ok` and a body that
either parses (`some raw`) or makes `response.json()` throw (`none`). -/
inductive FetchOutcome where
  | netErr
  | resp (ok : Bool) (body : Option RawUsageData)
deriving DecidableEq, Repr

/-- The mutable fields of `ClaudeOAuthService`. -/
structure OAuthState where
  cachedUsage : Option ClaudeUsageData
  lastFetch : Int
deriving DecidableEq, Repr

/-- The `ClaudeOAuthService.getUsageData`. Inputs beyond the state: the current
time, the result of `getAccessToken()` (which itself catches every Keychain
failure and resolves to `null`, hence an `Option`), and the fetch outcome.
Returns the new state, the result, and whether the network call was issued.
Every throwing step in the source sits inside a `try`/`catch` that returns
`null`, so the embedding is a total function: no error reaches the caller. -/
def getUsageData (s : OAuthState) (now : Int) (accessToken : Option String)
    (outcome : FetchOutcome) : OAuthState × Option ClaudeUsageData × Bool :=
  if s.cachedUsage.isSome ∧ now - s.lastFetch < 30000 then
    (s, s.cachedUsage, false)
  else
    match accessToken with
    | none => (s, none, false)
    | some _ =>
      match outcome with
      | .netErr => (s, none, true)
      | .resp ok body =>
        if ¬ok then (s, none, true)
        else
          match body with
          | none => (s, none, true)
          | some raw =>
            match raw.five_hour, raw.seven_day with
            | some fh, some sd =>
              let data : ClaudeUsageData :=
                ⟨fh, sd, raw.seven_day_sonnet, raw.seven_day_opus,
                 raw.seven_day_oauth_apps, raw.extra_usage⟩
              (⟨some data, now⟩, some data, true)
            | _, _ => (s, none, true)

/-- The `ClaudeOAuthService.formatTimeUntilReset`, over epoch-millisecond
timestamps. `Math.floor` of a positive quotient is `Nat` division. -/
def formatTimeUntilReset (resetsAt now : Int) : String :=
  let diff := resetsAt - now
  if diff ≤ 0 then "Resetting..."
  else
    let d := diff.toNat
    let hours := d / (1000 * 60 * 60)
    let minutes := (d % (1000 * 60 * 60)) / (1000 * 60)
    if hours > 24 then
      toString (hours / 24) ++ "d " ++ toString (hours % 24) ++ "h"
    else if hours > 0 then
      toString hours ++ "h " ++ toString minutes ++ "m"
    else
      toString minutes ++ "m"

/-! ## CCUsageService (ccusageService, src/unnamed/part_001) -/

/-- The `ModelBreakdown` rows of a ledger day. -/
structure ModelBreakdown where
  modelName : String
  inputTokens : ℚ
  outputTokens : ℚ
  cacheCreationTokens : ℚ
  cacheReadTokens : ℚ
  cost : ℚ
deriving DecidableEq, Repr

/-- The `DailyDataEntry` as returned by `loadDailyUsageData`. -/
structure DailyDataEntry where
  date : String
  inputTokens : ℚ
  outputTokens : ℚ
  cacheCreationTokens : ℚ
  cacheReadTokens : ℚ
  totalCost : ℚ
  modelBreakdowns : List ModelBreakdown
deriving DecidableEq, Repr

/-- JavaScript object assignment `acc[k] = v` on an insertion-ordered object:
an existing key keeps its position and gets the new value; a new key is
appended. -/
def assocSet (l : List (String × ModelUsage)) (k : String) (v : ModelUsage) :
    List (String × ModelUsage) :=
  match l with
  | [] => [(k, v)]
  | (k', v') :: rest =>
    if k' = k then (k, v) :: rest else (k', v') :: assocSet rest k v

/-- The `CCUsageService.processDailyData`. -/
def processDailyData (data : List DailyDataEntry) : List DailyUsage :=
  data.map fun day =>
    { date := day.date
      totalTokens := day.inputTokens + day.outputTokens
        + day.cacheCreationTokens + day.cacheReadTokens
      totalCost := day.totalCost
      models :=
        (day.modelBreakdowns.filter (fun mb => mb.modelName ≠ "<synthetic>")).foldl
          (fun acc mb =>
            assocSet acc mb.modelName
              ⟨mb.inputTokens + mb.outputTokens
                 + mb.cacheCreationTokens + mb.cacheReadTokens,
               mb.cost⟩)
          [] }

/-- The `CCUsageService.getEmptyDay`, with today's date string made explicit. -/
def getEmptyDay (todayStr : String) : DailyUsage :=
  { date := todayStr, totalTokens := 0, totalCost := 0, models := [] }

/-- The `CCUsageService.getEmptyStats`. -/
def getEmptyStats (todayStr : String) : UsageStats :=
  { today := getEmptyDay todayStr, thisWeek := [], oauthUtilization := none }

/-- The ambient clock and calendar used by `CCUsageService`: the current
epoch-millisecond time, today's date string
(`new Date().toISOString().split('T')[0]`), the timestamp of `new Date()`
shifted back 7 calendar days via `setDate`, and the `new Date(string)`
parser. These are the JavaScript `Date` library, external to the service. -/
structure Env where
  now : Int
  todayStr : String
  weekAgo : Int
  parseDate : String → Int

/-- The `CCUsageService.formatOAuthData` on a non-null argument (its only call
site guards with `oauthData ? ... : undefined`, so the `!data` default branch
of the source is unreachable there). `x || y` on a `string | null` treats
both `null` and the empty string as falsy. -/
def formatOAuthData (env : Env) (data : ClaudeUsageData) : OAuthUtilization :=
  let fiveHourResetDate :=
    match data.five_hour.resets_at with
    | some str => if str = "" then env.now else env.parseDate str
    | none => env.now
  let sevenDayResetDate :=
    match data.seven_day.resets_at with
    | some str => if str = "" then env.now else env.parseDate str
    | none => env.now
  { fiveHour :=
      { utilization := data.five_hour.utilization
        resetsAt := (data.five_hour.resets_at.getD "")
        formattedTimeRemaining := formatTimeUntilReset fiveHourResetDate env.now }
    sevenDay :=
      { utilization := data.seven_day.utilization
        resetsAt := (data.seven_day.resets_at.getD "")
        formattedTimeRemaining := formatTimeUntilReset sevenDayResetDate env.now }
    sevenDaySonnet := data.seven_day_sonnet.map (fun l => ⟨l.utilization⟩)
    sevenDayOpus :=
      match data.seven_day_opus with
      | some o =>
        if o.utilization > 0 then
          some { utilization := o.utilization
                 resetsAt := o.resets_at
                 formattedTimeRemaining :=
                   match o.resets_at with
                   | some str =>
                     if str = "" then "N/A"
                     else formatTimeUntilReset (env.parseDate str) env.now
                   | none => "N/A" }
        else none
      | none => none
    extraUsage := data.extra_usage.map
      (fun e => ⟨e.is_enabled, e.monthly_limit, e.used_credits, e.utilization⟩)
    isAvailable := true }

/-- The mutable fields of `CCUsageService`. -/
structure ServiceState where
  cachedStats : Option UsageStats
  lastUpdate : Int
  menuBarCostSource : CostSource
  sessionBlocks : List SessionBlock

/-- The field initializers of `CCUsageService`. -/
def initialServiceState : ServiceState :=
  { cachedStats := none, lastUpdate := 0
    menuBarCostSource := .today, sessionBlocks := [] }

/-- The fields `updateConfiguration` may receive
(`Partial<UserConfiguration>`; only `menuBarCostSource` is read). -/
structure ConfigUpdate where
  menuBarCostSource : Option CostSource

/-- The `CCUsageService.updateConfiguration`: applies a present
`menuBarCostSource` and unconditionally clears the stats cache. -/
def updateConfiguration (s : ServiceState) (config : ConfigUpdate) : ServiceState :=
  let s1 :=
    match config.menuBarCostSource with
    | some v => { s with menuBarCostSource := v }
    | none => s
  { s1 with cachedStats := none }

/-- The settled results of the three promises joined by `Promise.all` in
`getUsageStats`: `loadSessionBlockData` and `loadDailyUsageData` may reject
(`Except.error`) or resolve to a possibly-null list; `getUsageData` of the
OAuth service is total and resolves to a possibly-null value (it never
rejects, see `getUsageData`). -/
structure FetchResults where
  blocks : Except Unit (Option (List SessionBlock))
  dailyData : Except Unit (Option (List DailyDataEntry))
  oauth : Option ClaudeUsageData

/-- The synchronous prefix of `getUsageStats`, up to the `await Promise.all`:
the cache check. Returns the cached stats on a hit. -/
def cacheCheck (s : ServiceState) (now : Int) : Option UsageStats :=
  match s.cachedStats with
  | some stats => if now - s.lastUpdate < 3000 then some stats else none
  | none => none

/-- The continuation of `getUsageStats` after the `await Promise.all`,
including the surrounding `try`/`catch`: a rejection of either ledger
promise is caught and yields `getEmptyStats` with no state change; otherwise
the session blocks are stored, the daily data processed, and the result
cached. -/
def finishFetch (s : ServiceState) (env : Env) (f : FetchResults) :
    ServiceState × UsageStats :=
  match f.blocks, f.dailyData with
  | .ok blocks, .ok dailyData =>
    let s1 := { s with sessionBlocks := blocks.getD [] }
    let processedDaily := processDailyData (dailyData.getD [])
    let today :=
      (processedDaily.find? (fun d => d.date = env.todayStr)).getD
        (getEmptyDay env.todayStr)
    let thisWeek := processedDaily.filter (fun d => env.parseDate d.date ≥ env.weekAgo)
    let stats : UsageStats :=
      { today := today, thisWeek := thisWeek
        oauthUtilization := f.oauth.map (formatOAuthData env) }
    ({ s1 with cachedStats := some stats, lastUpdate := env.now }, stats)
  | _, _ => (s, getEmptyStats env.todayStr)

/-- The `CCUsageService.getUsageStats`: cache check, then on a miss the joined
fetch and merge. The `Bool` records whether the three-way parallel fetch was
issued. Total: no branch propagates an error to the caller. -/
def getUsageStats (s : ServiceState) (env : Env) (f : FetchResults) :
    ServiceState × UsageStats × Bool :=
  match cacheCheck s env.now with
  | some stats => (s, stats, false)
  | none =>
    let r := finishFetch s env f
    (r.1, r.2, true)

/-- The `CCUsageService.getMenuBarData`. -/
def getMenuBarData (s : ServiceState) (env : Env) (f : FetchResults) :
    ServiceState × MenuBarData :=
  let r := getUsageStats s env f
  let stats := r.2.1
  let percentageUsed :=
    match stats.oauthUtilization with
    | some o => if o.isAvailable then o.fiveHour.utilization else 0
    | none => 0
  let cost :=
    if r.1.menuBarCostSource = .sessionWindow then
      getSessionWindowCost r.1.sessionBlocks env.now
    else stats.today.totalCost
  (r.1,
   { percentageUsed := percentageUsed
     cost := cost
     status := getStatus percentageUsed
     oauthUtilization := stats.oauthUtilization })

/-- Two `getUsageStats` calls whose synchronous prefixes both run before
either continuation: in the single-threaded event loop each call runs up to
its `await Promise.all` (the cache check against the still-unwritten state,
then the fetches are started), and only afterwards do the continuations run
in order. Returns the final state and, per source (session blocks, daily
data, rate limit), how many fetches of it were started: each call that
missed the cache started one fetch of each source. -/
def concurrentMissRun (s : ServiceState) (envA envB : Env)
    (fA fB : FetchResults) : ServiceState × Nat × Nat × Nat :=
  let missA := (cacheCheck s envA.now).isNone
  let missB := (cacheCheck s envB.now).isNone
  let sA := if missA then (finishFetch s envA fA).1 else s
  let sB := if missB then (finishFetch sA envB fB).1 else sA
  let n := (if missA then 1 else 0) + (if missB then 1 else 0)
  (sB, n, n, n)

/-- Two `getUsageStats` calls run to completion one after the other, with
the same per-source fetch counts. -/
def sequentialRun (s : ServiceState) (envA envB : Env)
    (fA fB : FetchResults) : ServiceState × Nat × Nat × Nat :=
  let rA := getUsageStats s envA fA
  let rB := getUsageStats rA.1 envB fB
  let n := (if rA.2.2 then 1 else 0) + (if rB.2.2 then 1 else 0)
  (rB.1, n, n, n)

/-! ## Concrete inputs used in the claim instances below -/

/-- A `MenuBarData` with the given status and percentage; the cost and the
rate-limit payload play no role in the notification gate. -/
def menuData (st : Status) (p : ℚ) : MenuBarData :=
  { percentageUsed := p, cost := 0, status := st, oauthUtilization := none }

/-- The status sequence `safe, warning, critical, critical, warning, safe,
critical` with pairwise distinct data identifiers, successive calls 1000 s
apart (far outside the 5-minute cooldown). -/
def edgeSequenceCalls : List (MenuBarData × Int) :=
  [ (menuData .safe 10, 1000000)
  , (menuData .warning 75, 2000000)
  , (menuData .critical 95, 3000000)
  , (menuData .critical 96, 4000000)
  , (menuData .warning 80, 5000000)
  , (menuData .safe 20, 6000000)
  , (menuData .critical 97, 7000000) ]

/-- A reachable state: from the initial state, a warning at 75% fires at
t = 300000 and the 1-second lock timeout then runs. -/
def dedupStartState : NotificationState :=
  resetNotificationLock (checkAndNotify initialNotificationState (menuData .warning 75) 300000 .auto).1

/-- The snapshot both consecutive dedup-test calls carry. -/
def dedupData : MenuBarData := menuData .critical 95

/-- A state 100 s after a fired warning alert, for the cooldown instance. -/
def cooldownState : NotificationState :=
  { lastNotificationTime := 1000000
    lastWarningLevel := .warning
    lastNotificationData := "warning-75"
    notificationInProgress := false }

/-- A clock for the aggregator instances. -/
def sampleEnv : Env :=
  { now := 1000000, todayStr := "2026-01-01", weekAgo := 0, parseDate := fun _ => 500000 }

/-- The same clock 100 ms later, for the racing second call. -/
def sampleEnvLater : Env :=
  { now := 1000100, todayStr := "2026-01-01", weekAgo := 0, parseDate := fun _ => 500000 }

/-- A ledger day with nonzero usage. -/
def sampleDay : DailyDataEntry :=
  { date := "2026-01-01", inputTokens := 1, outputTokens := 2
    cacheCreationTokens := 3, cacheReadTokens := 4, totalCost := 7
    modelBreakdowns := [] }

/-- A well-formed rate-limit payload. -/
def sampleOAuth : ClaudeUsageData :=
  { five_hour := { utilization := 50, resets_at := none }
    seven_day := { utilization := 40, resets_at := none }
    seven_day_sonnet := none, seven_day_opus := none
    seven_day_oauth_apps := none, extra_usage := none }

/-- Fetch results where the session-block promise rejects while the daily
ledger and the rate-limit source both succeed. -/
def blocksFailFetch : FetchResults :=
  { blocks := .error (), dailyData := .ok (some [sampleDay]), oauth := some sampleOAuth }

/-- Fetch results where everything succeeds except the rate-limit source,
which resolves to null. -/
def oauthMissFetch : FetchResults :=
  { blocks := .ok (some []), dailyData := .ok (some [sampleDay]), oauth := none }

/-- Fetch results where all three sources succeed (empty ledger). -/
def allOkFetch : FetchResults :=
  { blocks := .ok (some []), dailyData := .ok (some []), oauth := none }

/-- The spec's session-block example, anchored at `now`: a 5-cost block
6 hours old, a 3-cost block 2 hours old, and a 2-cost gap block 1 hour
old. -/
def exampleBlocks (now : Int) : List SessionBlock :=
  [ { id := "a", startTime := now - 21600000, endTime := now
      isActive := false, isGap := false, costUSD := 5 }
  , { id := "b", startTime := now - 7200000, endTime := now
      isActive := true, isGap := false, costUSD := 3 }
  , { id := "c", startTime := now - 3600000, endTime := now
      isActive := true, isGap := true, costUSD := 2 } ]

/-- Cached stats, so that the menu-bar instance reads the stored blocks. -/
def sessionWindowState : ServiceState :=
  { cachedStats := some (getEmptyStats "2026-01-01")
    lastUpdate := 999000
    menuBarCostSource := .sessionWindow
    sessionBlocks := exampleBlocks 1000000 }

/-! ## Theorems -/

/-- The function `jsRound` equals Mathlib's `round`, i.e. `⌊q + 1/2⌋`, which is exactly
JavaScript `Math.round` on rational values. -/
theorem jsRound_eq_round (q : ℚ) : jsRound q = round q := by
  have key : q + 1 / 2 = ((2 * q.num + (q.den : ℤ) : ℤ) : ℚ) / (((2 * q.den : ℕ)) : ℚ) := by
    have h0 : ((q.den : ℚ)) ≠ 0 := Nat.cast_ne_zero.mpr q.den_nz
    conv_lhs => rw [← Rat.num_div_den q]
    push_cast
    field_simp
    ring
  rw [round_eq, key, Rat.floor_intCast_div_natCast, jsRound,
    Int.fdiv_eq_ediv _ (by positivity)]
  push_cast
  ring_nf

/-- The dedup gate: when the incoming identifier equals
`lastNotificationData`, or a send is in flight, `checkAndNotify` returns at
once. -/
theorem checkAndNotify_dedup_gate (s : NotificationState) (d : MenuBarData)
    (now : Int) (src : TriggerSource)
    (h : s.lastNotificationData = notificationDataIdentifier d ∨
      s.notificationInProgress = true) :
    checkAndNotify s d now src = (s, false) := by
  unfold checkAndNotify
  rw [if_pos h]

/-- A `checkAndNotify` call that fires records the call's data identifier in
`lastNotificationData`. -/
theorem checkAndNotify_fire_records_identifier (s : NotificationState)
    (d : MenuBarData) (now : Int) (src : TriggerSource)
    (h : (checkAndNotify s d now src).2 = true) :
    (checkAndNotify s d now src).1.lastNotificationData = notificationDataIdentifier d := by
  unfold checkAndNotify at h ⊢
  by_cases hA : s.lastNotificationData = notificationDataIdentifier d ∨
      s.notificationInProgress = true
  · simp only [if_pos hA] at h
    exact absurd h (by simp)
  · rw [if_neg hA] at h ⊢
    by_cases hB : now - s.lastNotificationTime < NOTIFICATION_COOLDOWN
    · simp only [if_pos hB] at h
      exact absurd h (by simp)
    · rw [if_neg hB] at h ⊢
      by_cases hC : d.status = Status.critical ∧ s.lastWarningLevel ≠ Status.critical
      · rw [if_pos hC]
      · rw [if_neg hC] at h ⊢
        by_cases hD : d.status = Status.warning ∧ s.lastWarningLevel = Status.safe
        · rw [if_pos hD]
        · simp only [if_neg hD] at h
          exact absurd h (by simp)

/-- C2 (counterexample). On the status sequence
safe, warning, critical, critical, warning, safe, critical — each call with
a distinct data identifier and outside the 5-minute cooldown — the claim
predicts fires on the warning, the first critical, and the final critical;
the code does not produce that fire pattern. -/
theorem C2_counterexample :
    (runSpacedCalls initialNotificationState edgeSequenceCalls).2 ≠
      [false, true, true, false, false, false, true] := by decide

/-- C2 (amended). On that same sequence exactly two notifications fire: the
warning entered from safe and the first critical. The final critical does
not fire, because `lastWarningLevel` is only updated when a notification
fires, so it still reads `critical` from the third call when the seventh
arrives. -/
theorem C2_edge_sequence :
    (runSpacedCalls initialNotificationState edgeSequenceCalls).2 =
      [false, true, true, false, false, false, false] ∧
    (runSpacedCalls initialNotificationState edgeSequenceCalls).1.lastWarningLevel =
      .critical := by decide

/-- C3 (counterexample). From the reachable state left by a fired warning
alert (lock timeout elapsed), two consecutive calls carry the identical
snapshot `critical, 95`: the first, 200 s after the alert, is suppressed by
the cooldown and records nothing; the second, once the cooldown has
elapsed, fires — so the second of two identical consecutive calls can
fire. -/
theorem C3_counterexample :
    (checkAndNotify dedupStartState dedupData 500000 .auto).2 = false ∧
    (checkAndNotify (checkAndNotify dedupStartState dedupData 500000 .auto).1
      dedupData 600001 .auto).2 = true := by decide

/-- C3 (amended). Two consecutive `checkAndNotify` calls with the same data
identifier can never both fire: if the first fires, it records the
identifier, and the second is returned by the dedup gate regardless of the
cooldown state. (A second identical call can still fire when the first was
suppressed, as the counterexample shows.) -/
theorem C3_dedup_no_double_fire (s : NotificationState) (d d' : MenuBarData)
    (now now' : Int) (src src' : TriggerSource)
    (hid : notificationDataIdentifier d' = notificationDataIdentifier d)
    (hfired : (checkAndNotify s d now src).2 = true) :
    (checkAndNotify (checkAndNotify s d now src).1 d' now' src').2 = false := by
  have hrec := checkAndNotify_fire_records_identifier s d now src hfired
  rw [checkAndNotify_dedup_gate (checkAndNotify s d now src).1 d' now' src'
    (Or.inl (hrec.trans hid.symm))]

/-- C3 (witness for the amended theorem): a warning fired from the initial
state is followed by an identical call, which does not fire. -/
theorem C3_dedup_no_double_fire_witness :
    (checkAndNotify
      (checkAndNotify initialNotificationState (menuData .warning 75) 300000 .auto).1
      (menuData .warning 75) 700000 .auto).2 = false :=
  C3_dedup_no_double_fire initialNotificationState (menuData .warning 75)
    (menuData .warning 75) 300000 700000 .auto .auto rfl (by decide)

/-- C5 (confirmed). When the elapsed time since `lastNotificationTime` is
below the 5-minute cooldown and the dedup gate has not already returned,
`checkAndNotify` returns without firing and without touching the state; the
cooldown test precedes the severity-edge test, so this holds even for a
worsening (e.g. warning-to-critical) transition. -/
theorem C5_cooldown_suppresses (s : NotificationState) (d : MenuBarData)
    (now : Int) (src : TriggerSource)
    (hdedup : ¬(s.lastNotificationData = notificationDataIdentifier d ∨
      s.notificationInProgress))
    (hcool : now - s.lastNotificationTime < NOTIFICATION_COOLDOWN) :
    checkAndNotify s d now src = (s, false) := by
  unfold checkAndNotify
  rw [if_neg hdedup, if_pos hcool]

/-- C5 (witness): a critical snapshot arriving 100 s after a fired warning
alert — a worsening transition inside the cooldown window — is suppressed. -/
theorem C5_cooldown_suppresses_witness :
    checkAndNotify cooldownState (menuData .critical 95) 1100000 .auto =
      (cooldownState, false) :=
  C5_cooldown_suppresses cooldownState (menuData .critical 95) 1100000 .auto
    (by decide) (by decide)

/-- C10 (confirmed). A `checkAndNotify` call that does not fire — whatever
the reason: identifier dedup, in-progress lock, cooldown, or no rising
severity edge — leaves the whole `NotificationState` unchanged; in
particular a safe snapshot never resets `lastWarningLevel`, and a
suppressed call's identifier is never recorded. -/
theorem C10_no_fire_frame (s : NotificationState) (d : MenuBarData)
    (now : Int) (src : TriggerSource)
    (h : (checkAndNotify s d now src).2 = false) :
    (checkAndNotify s d now src).1 = s := by
  unfold checkAndNotify at h ⊢
  by_cases hA : s.lastNotificationData = notificationDataIdentifier d ∨
      s.notificationInProgress = true
  · rw [if_pos hA]
  · rw [if_neg hA] at h ⊢
    by_cases hB : now - s.lastNotificationTime < NOTIFICATION_COOLDOWN
    · rw [if_pos hB]
    · rw [if_neg hB] at h ⊢
      by_cases hC : d.status = Status.critical ∧ s.lastWarningLevel ≠ Status.critical
      · simp only [if_pos hC] at h
        exact absurd h (by simp)
      · rw [if_neg hC] at h ⊢
        by_cases hD : d.status = Status.warning ∧ s.lastWarningLevel = Status.safe
        · simp only [if_pos hD] at h
          exact absurd h (by simp)
        · rw [if_neg hD]

/-- C7 (confirmed). `getStatus` is a total function of the percentage alone
— it takes no configuration input, so the configured
`notificationThresholds` cannot influence it — and its fixed 70/90
constants bucket the percentage as safe on `[0, 70)`, warning on `[70, 90)`
and critical at and above 90. -/
theorem C7_status_thresholds (p : ℚ) :
    (0 ≤ p → p < 70 → getStatus p = .safe) ∧
    (70 ≤ p → p < 90 → getStatus p = .warning) ∧
    (90 ≤ p → getStatus p = .critical) := by
  refine ⟨fun h0 h70 => ?_, fun h70 h90 => ?_, fun h90 => ?_⟩ <;> unfold getStatus
  · rw [if_neg (by push_neg; linarith), if_neg (by push_neg; linarith)]
  · rw [if_neg (by push_neg; linarith), if_pos (by linarith)]
  · rw [if_pos (by linarith)]

/-- C7 (witness): the thresholds at sample points 50, 75 and 95. -/
theorem C7_status_thresholds_witness :
    getStatus 50 = .safe ∧ getStatus 75 = .warning ∧ getStatus 95 = .critical :=
  ⟨(C7_status_thresholds 50).1 (by norm_num) (by norm_num),
   (C7_status_thresholds 75).2.1 (by norm_num) (by norm_num),
   (C7_status_thresholds 95).2.2 (by norm_num)⟩

/-- The window-cost loop of `getSessionWindowCost`, characterised as a
filtered sum. -/
theorem foldl_window_cost (l : List SessionBlock) (w : Int) (acc : ℚ) :
    l.foldl
      (fun total block =>
        if block.isGap then total
        else if block.startTime ≥ w then total + block.costUSD
        else total) acc =
      acc + ((l.filter fun b => !b.isGap && decide (b.startTime ≥ w)).map
        SessionBlock.costUSD).sum := by
  induction l generalizing acc with
  | nil => simp
  | cons b bs ih =>
    simp only [List.foldl_cons, List.filter_cons]
    by_cases hg : b.isGap
    · simp [hg, ih]
    · by_cases hw : b.startTime ≥ w
      · simp [hg, hw, ih, add_assoc]
      · simp [hg, hw, ih]

/-- The value `getSessionWindowCost` is the sum of `costUSD` over the non-gap blocks
whose `startTime` is at or after `now` minus 5 hours. -/
theorem getSessionWindowCost_eq_sum (blocks : List SessionBlock) (now : Int) :
    getSessionWindowCost blocks now =
      ((blocks.filter fun b =>
        !b.isGap && decide (b.startTime ≥ now - 5 * 60 * 60 * 1000)).map
        SessionBlock.costUSD).sum := by
  unfold getSessionWindowCost
  cases blocks with
  | nil => simp
  | cons b bs =>
    rw [if_neg (by simp)]
    rw [foldl_window_cost]
    simp

/-- The call `getUsageStats` never changes the configured cost source. -/
theorem getUsageStats_costSource (s : ServiceState) (env : Env) (f : FetchResults) :
    (getUsageStats s env f).1.menuBarCostSource = s.menuBarCostSource := by
  unfold getUsageStats
  cases hc : cacheCheck s env.now with
  | some stats => rfl
  | none =>
    rcases hb : f.blocks with e | bs <;> rcases hd : f.dailyData with e2 | ds <;>
      simp [finishFetch, hb, hd]

/-- C8 (confirmed). When the configured cost source is `sessionWindow`, the
menu-bar cost is the sum of `costUSD` over the stored session blocks whose
`startTime` is at or after `now` minus 5 hours, gap blocks skipped. -/
theorem C8_session_window_cost (s : ServiceState) (env : Env) (f : FetchResults)
    (hsrc : s.menuBarCostSource = .sessionWindow) :
    (getMenuBarData s env f).2.cost =
      (((getMenuBarData s env f).1.sessionBlocks.filter fun b =>
        !b.isGap && decide (b.startTime ≥ env.now - 5 * 60 * 60 * 1000)).map
        SessionBlock.costUSD).sum := by
  have hcs : (getUsageStats s env f).1.menuBarCostSource = .sessionWindow := by
    rw [getUsageStats_costSource, hsrc]
  simp only [getMenuBarData, hcs, if_pos, getSessionWindowCost_eq_sum]

/-- C8 (witness): the spec's example — blocks of cost 5 (6 h old), cost 3
(2 h old) and cost 2 (1 h old but a gap) — yields a menu-bar cost of 3. -/
theorem C8_session_window_cost_witness :
    (getMenuBarData sessionWindowState sampleEnv allOkFetch).2.cost = 3 := by
  rw [C8_session_window_cost sessionWindowState sampleEnv allOkFetch rfl]
  norm_num [getMenuBarData, getUsageStats, cacheCheck, sessionWindowState,
    sampleEnv, exampleBlocks, List.filter]

/-- On a cold or stale cache the check misses. -/
theorem cacheCheck_none (s : ServiceState) (now : Int)
    (h : s.cachedStats = none ∨ 3000 ≤ now - s.lastUpdate) :
    cacheCheck s now = none := by
  unfold cacheCheck
  cases hs : s.cachedStats with
  | none => rfl
  | some c =>
    rcases h with h | h
    · rw [hs] at h; cases h
    · simp [not_lt.mpr h]

/-- C6 (confirmed). A `getUsageStats` call issued strictly less than 3 s
after the cached snapshot was stored returns exactly the cached value with
no fetch; at 3 s or more it refetches; and `updateConfiguration` clears the
cache at once, so the next call refetches regardless of elapsed time. -/
theorem C6_cache_freshness (s : ServiceState) (env : Env) (f : FetchResults)
    (c : UsageStats) :
    (s.cachedStats = some c → env.now - s.lastUpdate < 3000 →
      getUsageStats s env f = (s, c, false)) ∧
    (3000 ≤ env.now - s.lastUpdate → (getUsageStats s env f).2.2 = true) ∧
    (∀ cfg : ConfigUpdate, (updateConfiguration s cfg).cachedStats = none ∧
      ∀ (env2 : Env) (f2 : FetchResults),
        (getUsageStats (updateConfiguration s cfg) env2 f2).2.2 = true) := by
  refine ⟨fun h1 h2 => ?_, fun h => ?_, fun cfg => ⟨?_, fun env2 f2 => ?_⟩⟩
  · have hcc : cacheCheck s env.now = some c := by
      simp [cacheCheck, h1, h2]
    simp [getUsageStats, hcc]
  · rw [getUsageStats, cacheCheck_none s env.now (Or.inr h)]
  · unfold updateConfiguration
    cases cfg.menuBarCostSource <;> rfl
  · have hnone : (updateConfiguration s cfg).cachedStats = none := by
      unfold updateConfiguration
      cases cfg.menuBarCostSource <;> rfl
    rw [getUsageStats, cacheCheck_none _ env2.now (Or.inl hnone)]

/-- C6 (witness): a call 1 s after the cache was stored returns the cached
snapshot without fetching; a call 3 s after refetches; and after an (empty)
configuration update the next call refetches although only 1 s elapsed. -/
theorem C6_cache_freshness_witness :
    getUsageStats sessionWindowState sampleEnv allOkFetch =
      (sessionWindowState, getEmptyStats "2026-01-01", false) ∧
    (getUsageStats sessionWindowState
      { sampleEnv with now := 1002000 } allOkFetch).2.2 = true ∧
    (getUsageStats (updateConfiguration sessionWindowState { menuBarCostSource := none })
      sampleEnv allOkFetch).2.2 = true :=
  ⟨(C6_cache_freshness sessionWindowState sampleEnv allOkFetch
      (getEmptyStats "2026-01-01")).1 rfl (by decide),
   (C6_cache_freshness sessionWindowState { sampleEnv with now := 1002000 } allOkFetch
      (getEmptyStats "2026-01-01")).2.1 (by decide),
   ((C6_cache_freshness sessionWindowState sampleEnv allOkFetch
      (getEmptyStats "2026-01-01")).2.2 { menuBarCostSource := none }).2 sampleEnv allOkFetch⟩

/-- C9 (confirmed). On a cache miss, `ClaudeOAuthService.getUsageData`
returns null without any network call when no credential is available, and
returns null after the one network call when the fetch rejects, the
response is non-2xx, the body fails to parse, or the body is missing the
five-hour or seven-day window. The embedding is a total function because
every throwing step of the source sits inside a `try`/`catch` that returns
null — no error reaches the caller; failure detail goes to `console.error`
only (an external side effect not modelled). -/
theorem C9_oauth_fails_soft (s : OAuthState) (now : Int) (tok : Option String)
    (outcome : FetchOutcome)
    (hmiss : s.cachedUsage = none ∨ 30000 ≤ now - s.lastFetch) :
    (tok = none → getUsageData s now tok outcome = (s, none, false)) ∧
    (∀ t, tok = some t → outcome = .netErr →
      (getUsageData s now tok outcome).2.1 = none) ∧
    (∀ t b, tok = some t → outcome = .resp false b →
      (getUsageData s now tok outcome).2.1 = none) ∧
    (∀ t, tok = some t → outcome = .resp true none →
      (getUsageData s now tok outcome).2.1 = none) ∧
    (∀ t raw, tok = some t → outcome = .resp true (some raw) →
      raw.five_hour = none ∨ raw.seven_day = none →
      (getUsageData s now tok outcome).2.1 = none) := by
  have hcold : ¬(s.cachedUsage.isSome ∧ now - s.lastFetch < 30000) := by
    rcases hmiss with h | h
    · simp [h]
    · exact fun hc => absurd hc.2 (not_lt.mpr h)
  refine ⟨fun ht => ?_, fun t ht ho => ?_, fun t b ht ho => ?_,
    fun t ht ho => ?_, fun t raw ht ho hw => ?_⟩
  · subst ht; unfold getUsageData; rw [if_neg hcold]
  · subst ht; subst ho; unfold getUsageData; rw [if_neg hcold]
  · subst ht; subst ho; unfold getUsageData; rw [if_neg hcold]; simp
  · subst ht; subst ho; unfold getUsageData; rw [if_neg hcold]; simp
  · subst ht; subst ho; unfold getUsageData; rw [if_neg hcold]
    rcases hw with h | h <;> rcases hv : raw.five_hour with _ | fh <;>
      rcases hsd : raw.seven_day with _ | sd <;> simp_all

/-- C9 (witness): with a cold cache, a missing credential yields null with
no network call, and a parsed body missing the five-hour window yields
null. -/
theorem C9_oauth_fails_soft_witness :
    getUsageData { cachedUsage := none, lastFetch := 0 } 0 none .netErr =
      ({ cachedUsage := none, lastFetch := 0 }, none, false) ∧
    (getUsageData { cachedUsage := none, lastFetch := 0 } 0 (some "tok")
      (.resp true (some
        { five_hour := none, seven_day := some { utilization := 40, resets_at := none }
          seven_day_sonnet := none, seven_day_opus := none
          seven_day_oauth_apps := none, extra_usage := none }))).2.1 = none :=
  ⟨(C9_oauth_fails_soft { cachedUsage := none, lastFetch := 0 } 0 none .netErr
      (Or.inl rfl)).1 rfl,
   (C9_oauth_fails_soft { cachedUsage := none, lastFetch := 0 } 0 (some "tok") _
      (Or.inl rfl)).2.2.2.2 "tok" _ rfl rfl (Or.inl rfl)⟩

/-- C1 (counterexample). With a cold cache, the session-block promise
rejecting while the daily ledger and the rate-limit source both succeed
(the ledger day has cost 7, the rate-limit payload is available), the code
returns the all-zero snapshot: the successful daily data is dropped and
`oauthUtilization` is absent, instead of only the session-block field
degrading. -/
theorem C1_counterexample :
    getUsageStats initialServiceState sampleEnv blocksFailFetch =
      (initialServiceState, getEmptyStats "2026-01-01", true) ∧
    (getEmptyStats "2026-01-01").oauthUtilization = none ∧
    (getEmptyStats "2026-01-01").today.totalCost = 0 ∧
    blocksFailFetch.dailyData = .ok (some [sampleDay]) ∧
    sampleDay.totalCost = 7 ∧
    blocksFailFetch.oauth = some sampleOAuth := by
  refine ⟨rfl, rfl, rfl, rfl, rfl, rfl⟩

/-- C1 (amended). On a cache miss the three fetches are joined by one
`try`/`catch`: only the rate-limit source fails soft individually (its null
result degrades `oauthUtilization` alone, the ledger fields are kept), while
a rejection of the session-block or the daily promise is caught by the
single handler and yields the all-zero snapshot even when the other sources
succeeded. In no case does an error propagate to the caller: `getUsageStats`
is a total function. -/
theorem C1_failure_isolation (s : ServiceState) (env : Env) (f : FetchResults)
    (hmiss : cacheCheck s env.now = none) :
    ((f.blocks = .error () ∨ f.dailyData = .error ()) →
      getUsageStats s env f = (s, getEmptyStats env.todayStr, true)) ∧
    (∀ bs ds, f.blocks = .ok bs → f.dailyData = .ok ds → f.oauth = none →
      (getUsageStats s env f).2.1.oauthUtilization = none ∧
      (getUsageStats s env f).2.1.today =
        ((processDailyData (ds.getD [])).find? (fun d => d.date = env.todayStr)).getD
          (getEmptyDay env.todayStr)) := by
  constructor
  · intro herr
    rw [getUsageStats, hmiss]
    rcases herr with h | h
    · simp [finishFetch, h]
    · rcases hb : f.blocks with e | bs <;> simp [finishFetch, h, hb]
  · intro bs ds hb hd ho
    rw [getUsageStats, hmiss]
    simp [finishFetch, hb, hd, ho]

/-- C1 (witness): the rejecting-blocks case yields the all-zero snapshot,
and the null-rate-limit case keeps the ledger data while only
`oauthUtilization` is absent. -/
theorem C1_failure_isolation_witness :
    getUsageStats initialServiceState sampleEnv blocksFailFetch =
      (initialServiceState, getEmptyStats "2026-01-01", true) ∧
    (getUsageStats initialServiceState sampleEnv oauthMissFetch).2.1.oauthUtilization = none :=
  ⟨(C1_failure_isolation initialServiceState sampleEnv blocksFailFetch rfl).1
      (Or.inl rfl),
   ((C1_failure_isolation initialServiceState sampleEnv oauthMissFetch rfl).2
      (some []) (some [sampleDay]) rfl rfl rfl).1⟩

/-- C4 (counterexample). Two `getUsageStats` calls racing on a cold cache —
both cache checks run before either fetch completes, which is exactly the
single-threaded interleaving of the two `await Promise.all` points — do not
trigger exactly one fetch of each of the three sources. -/
theorem C4_counterexample :
    (concurrentMissRun initialServiceState sampleEnv sampleEnvLater
      allOkFetch allOkFetch).2 ≠ (1, 1, 1) := by decide

/-- C4 (amended). There is no in-flight coalescing slot: whenever the cache
is empty, two calls whose cache checks both precede either continuation
each start their own fetch of all three sources — two fetches per source.
Coalescing happens only through the TTL cache: run sequentially, with the
second call within 3 s of a first successful fetch, the pair triggers a
single fetch of each source. -/
theorem C4_no_coalescing (s : ServiceState) (envA envB : Env) (fA fB : FetchResults)
    (h : s.cachedStats = none) :
    (concurrentMissRun s envA envB fA fB).2 = (2, 2, 2) ∧
    (∀ bs ds, fA.blocks = .ok bs → fA.dailyData = .ok ds →
      envB.now - envA.now < 3000 →
      (sequentialRun s envA envB fA fB).2 = (1, 1, 1)) := by
  constructor
  · simp [concurrentMissRun, cacheCheck, h]
  · intro bs ds hb hd ht
    have hccA : cacheCheck s envA.now = none := by simp [cacheCheck, h]
    have hA : getUsageStats s envA fA =
        ((finishFetch s envA fA).1, (finishFetch s envA fA).2, true) := by
      rw [getUsageStats, hccA]
    have hstored : (finishFetch s envA fA).1.cachedStats =
        some (finishFetch s envA fA).2 ∧
        (finishFetch s envA fA).1.lastUpdate = envA.now := by
      rw [finishFetch, hb, hd]
      exact ⟨rfl, rfl⟩
    have hccB : cacheCheck (finishFetch s envA fA).1 envB.now =
        some (finishFetch s envA fA).2 := by
      simp [cacheCheck, hstored.1, hstored.2, ht]
    have hB : getUsageStats (finishFetch s envA fA).1 envB fB =
        ((finishFetch s envA fA).1, (finishFetch s envA fA).2, false) := by
      unfold getUsageStats
      rw [hccB]
    simp [sequentialRun, hA, hB]

/-- C4 (witness for the amended theorem): on the cold initial state the
concrete race triggers two fetches per source, and the sequential pair 100
ms apart triggers one. -/
theorem C4_no_coalescing_witness :
    (concurrentMissRun initialServiceState sampleEnv sampleEnvLater
      allOkFetch allOkFetch).2 = (2, 2, 2) ∧
    (sequentialRun initialServiceState sampleEnv sampleEnvLater
      allOkFetch allOkFetch).2 = (1, 1, 1) :=
  ⟨(C4_no_coalescing initialServiceState sampleEnv sampleEnvLater
      allOkFetch allOkFetch rfl).1,
   (C4_no_coalescing initialServiceState sampleEnv sampleEnvLater
      allOkFetch allOkFetch rfl).2 (some []) (some []) rfl rfl (by decide)⟩

/-- C10 (witness): a safe snapshot after a fired critical alert does not
fire and leaves the state — `lastWarningLevel` included — untouched. -/
theorem C10_no_fire_frame_witness :
    (checkAndNotify
      { lastNotificationTime := 1000000, lastWarningLevel := .critical
        lastNotificationData := "critical-95", notificationInProgress := false }
      (menuData .safe 20) 2000000 .auto).1 =
      { lastNotificationTime := 1000000, lastWarningLevel := .critical
        lastNotificationData := "critical-95", notificationInProgress := false } :=
  C10_no_fire_frame _ (menuData .safe 20) 2000000 .auto (by decide)

end ClaudeMeter
